import Mathlib

/-!
Shallow embedding of the pdftomarkdown pipeline (src/index.ts,
src/core/LLMClient.ts, src/core/PDFWorker.ts) in Lean 4.

Modelling conventions:
* JavaScript numbers that arise from `parseInt` are modelled by `JSNum`:
  either a mathematical integer or `NaN`.  The JS comparison operators
  `<`, `>`, `===`, `!==` on numbers are modelled by `jsLt`, `jsGt`, `jsEq`
  (every comparison involving `NaN` is false, as in JS).
* Filesystem and subprocess effects are abstracted by a `RunOracle` that
  supplies the result of each external-tool invocation (pdfinfo page-count
  query, pdftk extraction, pdftoppm rasterization) and of each HTTP
  completion attempt.  The observable effects of a run are collected in a
  `RunState` record (directory created/removed, tools invoked, images
  produced, markdown printed, exit code).
* A page image is represented by the page number of the document content
  it shows; rasterization of a PDF covering content pages `s..e` yields
  those pages in ascending order, matching the lexicographically sorted
  `page-*.jpg` file names for the page counts considered here.
* The string printed by the final `console.log(markdown)` is recorded in
  `RunState.printed`; timestamped log lines are not modelled.
-/

/-- A JavaScript number produced by `parseInt`: an integer or `NaN`. -/
inductive JSNum where
  | int : Int → JSNum
  | nan : JSNum
deriving DecidableEq

/-- JS `<` on numbers: any comparison with `NaN` is false. -/
def jsLt : JSNum → JSNum → Bool
  | JSNum.int a, JSNum.int b => a < b
  | _, _ => false

/-- JS `>` on numbers: any comparison with `NaN` is false. -/
def jsGt : JSNum → JSNum → Bool
  | JSNum.int a, JSNum.int b => b < a
  | _, _ => false

/-- JS `===` on numbers: `NaN === x` is false for every `x`. -/
def jsEq : JSNum → JSNum → Bool
  | JSNum.int a, JSNum.int b => a == b
  | _, _ => false

/-- JS number-to-string coercion as used in template literals. -/
def jsNumToString : JSNum → String
  | JSNum.int i => toString i
  | JSNum.nan => "NaN"

/-- Page-range resolution from `main` (src/index.ts lines 148-153):
`if (startPage < 1 || startPage > totalPages) startPage = 1;`
`if (endPage === 0 || endPage > totalPages) endPage = totalPages;`. -/
def resolveRange (startPage endPage : JSNum) (totalPages : Int) : JSNum × JSNum :=
  let s := if jsLt startPage (JSNum.int 1) || jsGt startPage (JSNum.int totalPages) then
      JSNum.int 1
    else startPage
  let e := if jsEq endPage (JSNum.int 0) || jsGt endPage (JSNum.int totalPages) then
      JSNum.int totalPages
    else endPage
  (s, e)

/-- Argument parsing from `main` (src/index.ts lines 109-115): with two or
more arguments the first two are start and end; with exactly one argument
the start page is 1 and the argument is the end page.  The empty-argument
case exits earlier and never reaches this point. -/
def parseArgs : JSNum → List JSNum → JSNum × JSNum
  | a, [] => (JSNum.int 1, a)
  | a, b :: _ => (a, b)

/-- The default of the `retryTimes` parameter of `completion`
(src/index.ts line 34). -/
def retryTimesDefault : Nat := 3

/-- The fixed backoff delay in milliseconds between retry attempts
(src/index.ts line 71). -/
def retryDelayMs : Nat := 500

/-- Observable outcome of the retry loop in `completion`
(src/index.ts lines 56-74): the returned string, how many attempts were
made, how many errors were logged, and the list of backoff delays
performed (one per failed attempt, each of `retryDelayMs` milliseconds). -/
structure RetryResult where
  result : String
  attempts : Nat
  errorsLogged : Nat
  waitsMs : List Nat
deriving DecidableEq

/-- The retry loop of `completion` (src/index.ts lines 56-74), starting at
attempt index `i` with `fuel` remaining iterations.  `att j` is the result
of the `j`-th call to `client.completion`: `some s` if it resolves with
`s`, `none` if it throws.  On a throw the error is logged and the loop
waits 500ms; when the loop exhausts all iterations it returns `""`. -/
def retryGo (att : Nat → Option String) : Nat → Nat → RetryResult
  | _, 0 => { result := "", attempts := 0, errorsLogged := 0, waitsMs := [] }
  | i, fuel + 1 =>
    match att i with
    | some s => { result := s, attempts := 1, errorsLogged := 0, waitsMs := [] }
    | none =>
      let r := retryGo att (i + 1) fuel
      { result := r.result, attempts := r.attempts + 1,
        errorsLogged := r.errorsLogged + 1, waitsMs := retryDelayMs :: r.waitsMs }

/-- The retry-wrapped completion call of src/index.ts, after the API-key
check has passed: run the retry loop from attempt 0 for `retryTimes`
iterations. -/
def completionRetry (att : Nat → Option String) (retryTimes : Nat) : RetryResult :=
  retryGo att 0 retryTimes

/-- Results of the external effects of one run: the pdfinfo page-count
query (src/core/PDFWorker.ts `getTotalPages`), whether the pdftk
extraction succeeds (`extractPages`), whether the pdftoppm rasterization
succeeds (`convertToImages`), and for each content page the outcome of
each HTTP completion attempt for that page's image (`none` = the call
throws). -/
structure RunOracle where
  totalPages : Except String Int
  extractOk : Bool
  rasterOk : Bool
  attempts : Int → Nat → Option String

/-- Observable effects of one run of `main` (src/index.ts).  Paths are
relative to the per-run working directory. -/
structure RunState where
  dirCreated : Bool
  pdfSaved : Bool
  pageCountQueried : Bool
  extractInvoked : Bool
  extractRangeArg : Option String
  rasterSource : Option String
  images : List Int
  printed : Option String
  dirRemoved : Bool
  exitCode : Option Nat
deriving DecidableEq

/-- The state before any step has run. -/
def initState : RunState :=
  { dirCreated := false, pdfSaved := false, pageCountQueried := false,
    extractInvoked := false, extractRangeArg := none, rasterSource := none,
    images := [], printed := none, dirRemoved := false, exitCode := none }

/-- The integers from `a` to `b` inclusive (empty when `b < a`). -/
def intRange (a b : Int) : List Int :=
  (List.range (b + 1 - a).toNat).map fun k => a + k

/-- Content pages of a PDF extracted with range `s-e`; meaningful only for
integer bounds, as pdftk fails on anything else. -/
def pagesOf : JSNum → JSNum → List Int
  | JSNum.int a, JSNum.int b => intRange a b
  | _, _ => []

/-- The markdown contributed by one page image: the result of the
retry-wrapped `convertImageToMarkdown` call (src/index.ts line 182). -/
def pageMarkdown (o : RunOracle) (retryTimes : Nat) (p : Int) : String :=
  (completionRetry (o.attempts p) retryTimes).result

/-- The transcription loop of `main` (src/index.ts lines 178-186):
`markdown += imgMarkdown; markdown += "\n\n";` for each image in order. -/
def accumulateMarkdown (o : RunOracle) (retryTimes : Nat) (images : List Int) : String :=
  images.foldl (fun acc p => acc ++ pageMarkdown o retryTimes p ++ "\n\n") ""

/-- Everything from the rasterization call onwards (src/index.ts lines
172-197): record the PDF handed to pdftoppm, fail if pdftoppm fails,
otherwise transcribe each image.  The API-key check sits inside each
`completion` call (src/index.ts lines 37-41), so a missing key terminates
the process at the first transcription call — after rasterization, before
any markdown is printed and before the directory is removed. -/
def rasterStage (st : RunState) (source : String) (pages : List Int)
    (apiKey : String) (o : RunOracle) (retryTimes : Nat) : RunState :=
  let st1 := { st with rasterSource := some source }
  if o.rasterOk then
    let st2 := { st1 with images := pages }
    if !pages.isEmpty && apiKey == "" then
      { st2 with exitCode := some 1 }
    else
      { st2 with
        printed := some (accumulateMarkdown o retryTimes pages)
        dirRemoved := true
        exitCode := some 0 }
  else
    { st1 with exitCode := some 1 }

/-- The state after the working directory is created, the input PDF is
saved and the pdfinfo page-count query has run. -/
def countedState : RunState :=
  { initState with
    dirCreated := true
    pdfSaved := true
    pageCountQueried := true }

/-- The part of `main` after the page count is known (src/index.ts lines
148-197): resolve the page range, extract the sub-range with pdftk when
the resolved range is not `(1, totalPages)` (condition
`startPage !== 1 || endPage !== totalPages`, line 162), then rasterize
and transcribe. -/
def pageStage (startArg endArg : JSNum) (total : Int) (apiKey : String)
    (o : RunOracle) (retryTimes : Nat) : RunState :=
  let se := resolveRange startArg endArg total
  if !jsEq se.1 (JSNum.int 1) || !jsEq se.2 (JSNum.int total) then
    let st2 := { countedState with
      extractInvoked := true
      extractRangeArg := some (jsNumToString se.1 ++ "-" ++ jsNumToString se.2) }
    if o.extractOk then
      rasterStage st2
        ("extract_" ++ jsNumToString se.1 ++ "_" ++ jsNumToString se.2 ++ ".pdf")
        (pagesOf se.1 se.2) apiKey o retryTimes
    else
      { st2 with exitCode := some 1 }
  else
    rasterStage countedState "input.pdf" (pagesOf (JSNum.int 1) (JSNum.int total))
      apiKey o retryTimes

/-- One run of `main` (src/index.ts lines 96-205): usage check, empty-input
check, working-directory creation, input save, page-count query, range
resolution, optional extraction, rasterization, transcription, output,
cleanup.  Every failure path terminates the process with exit code 1
without reaching the `fs.rmSync` cleanup at line 194. -/
def runPipeline (args : List JSNum) (inputSize : Nat) (apiKey : String)
    (o : RunOracle) (retryTimes : Nat) : RunState :=
  match args with
  | [] => { initState with exitCode := some 1 }
  | a :: rest =>
    if inputSize = 0 then { initState with exitCode := some 1 }
    else
      let sa := parseArgs a rest
      match o.totalPages with
      | Except.error _ => { countedState with exitCode := some 1 }
      | Except.ok total => pageStage sa.1 sa.2 total apiKey o retryTimes

/-- A JavaScript value as returned by `LLMClient.completion`: a string, or
the `undefined` that results from reading an absent property. -/
inductive JsValue where
  | str : String → JsValue
  | undef : JsValue
deriving DecidableEq

/-- One element of the `parts` array of an API response candidate; `text`
is `none` when the `text` property is absent. -/
structure JsPart where
  text : Option String
deriving DecidableEq

/-- The `content` object of a candidate; `parts` is `none` when the
`parts` property is absent. -/
structure JsContent where
  parts : Option (List JsPart)
deriving DecidableEq

/-- One element of the `candidates` array; `content` is `none` when the
`content` property is absent. -/
structure JsCandidate where
  content : Option JsContent
deriving DecidableEq

/-- The body of an API response; `candidates` is `none` when the
`candidates` property is absent. -/
structure ApiResponse where
  candidates : Option (List JsCandidate)
deriving DecidableEq

/-- Response parsing in `LLMClient.completion` (src/core/LLMClient.ts
lines 92-103): the guard chain checks `response.data`, `candidates`,
`candidates.length > 0`, `candidates[0].content`, `...content.parts` and
`parts.length > 0`; when every guard passes it returns
`candidates[0].content.parts[0].text` — which is `undefined` when the
first part has no `text` property, since `text` itself is never guarded —
and otherwise falls through to `return ""`.  The argument is `none` when
`response.data` is absent. -/
def extractText : Option ApiResponse → JsValue
  | none => JsValue.str ""
  | some r =>
    match r.candidates with
    | none => JsValue.str ""
    | some cs =>
      match cs with
      | [] => JsValue.str ""
      | c :: _ =>
        match c.content with
        | none => JsValue.str ""
        | some content =>
          match content.parts with
          | none => JsValue.str ""
          | some ps =>
            match ps with
            | [] => JsValue.str ""
            | p :: _ =>
              match p.text with
              | none => JsValue.undef
              | some t => JsValue.str t

/-- The first failing image read of `LLMClient.completion` (src/core/
LLMClient.ts lines 44-61): images are read in order and the first
`fs.readFileSync` error is re-thrown. -/
def firstReadError (reads : List (Except String String)) : Option String :=
  reads.findSome? fun r =>
    match r with
    | Except.error e => some e
    | Except.ok _ => none

/-- The error behaviour of `LLMClient.completion` (src/core/LLMClient.ts
lines 40-107): a failing image read throws first; otherwise a failing
`axios.post` throws; otherwise the response body is parsed with
`extractText` and returned.  `reads` are the results of the image file
reads in order; `http` is the result of the HTTP call, carrying the
response body on success. -/
def clientCompletion (reads : List (Except String String))
    (http : Except String (Option ApiResponse)) : Except String JsValue :=
  match firstReadError reads with
  | some e => Except.error e
  | none =>
    match http with
    | Except.error e => Except.error e
    | Except.ok r => Except.ok (extractText r)

/-- JS `a || b` on strings: the empty string is falsy. -/
def jsOrString (a b : String) : String :=
  if a = "" then b else a

/-- Model resolution in `completion` (src/index.ts lines 47-50):
`if (!model) model = process.env.OPENAI_DEFAULT_MODEL || "gemini-1.5-pro"`.
`envDefault` is the value of `OPENAI_DEFAULT_MODEL`, with `""` standing
for an unset variable (both are falsy in JS). -/
def resolveModel (model envDefault : String) : String :=
  if model = "" then jsOrString envDefault "gemini-1.5-pro" else model

/-- The sampling parameters of one completion request. -/
structure CompletionParams where
  model : String
  temperature : ℚ
  maxTokens : Nat
deriving DecidableEq

/-- The arguments `convertImageToMarkdown` passes to `completion`
(src/index.ts lines 85-92): model "gemini-1.5-pro", temperature 0.3,
max 8192 output tokens. -/
def convertImageToMarkdownParams : CompletionParams :=
  { model := "gemini-1.5-pro", temperature := 0.3, maxTokens := 8192 }

theorem jsEq_int_iff (x : JSNum) (k : Int) : jsEq x (JSNum.int k) = true ↔ x = JSNum.int k := by
  cases x with
  | int a => simp [jsEq]
  | nan => simp [jsEq]

theorem retryGo_attempts_le (att : Nat → Option String) :
    ∀ fuel i, (retryGo att i fuel).attempts ≤ fuel := by
  intro fuel
  induction fuel with
  | zero => intro i; simp [retryGo]
  | succ n ih =>
    intro i
    simp only [retryGo]
    cases att i with
    | some s => simp
    | none => simpa using Nat.succ_le_succ (ih (i + 1))

theorem retryGo_all_fail (att : Nat → Option String) :
    ∀ fuel i, (∀ j, i ≤ j → j < i + fuel → att j = none) →
      retryGo att i fuel =
        { result := "", attempts := fuel, errorsLogged := fuel,
          waitsMs := List.replicate fuel retryDelayMs } := by
  intro fuel
  induction fuel with
  | zero => intro i _; simp [retryGo]
  | succ n ih =>
    intro i h
    have hi : att i = none := h i (Nat.le_refl i) (by omega)
    simp only [retryGo, hi]
    rw [ih (i + 1) (fun j hj1 hj2 => h j (by omega) (by omega))]
    simp [List.replicate]

theorem retryGo_first_success (att : Nat → Option String) :
    ∀ fuel i k s, k < fuel → att (i + k) = some s →
      (∀ j, j < k → att (i + j) = none) →
      retryGo att i fuel =
        { result := s, attempts := k + 1, errorsLogged := k,
          waitsMs := List.replicate k retryDelayMs } := by
  intro fuel
  induction fuel with
  | zero => intro i k s hk; omega
  | succ n ih =>
    intro i k s hk hsucc hfail
    cases k with
    | zero =>
      simp only [Nat.add_zero] at hsucc
      simp [retryGo, hsucc, List.replicate]
    | succ m =>
      have hi : att i = none := by simpa using hfail 0 (Nat.succ_pos m)
      simp only [retryGo, hi]
      rw [ih (i + 1) m s (by omega) (by rw [show i + 1 + m = i + (m + 1) by omega]; exact hsucc)
        (fun j hj => by rw [show i + 1 + j = i + (j + 1) by omega]; exact hfail (j + 1) (by omega))]
      simp [List.replicate]

theorem rasterStage_rasterSource (st : RunState) (source : String) (pages : List Int)
    (apiKey : String) (o : RunOracle) (rt : Nat) :
    (rasterStage st source pages apiKey o rt).rasterSource = some source := by
  unfold rasterStage
  split
  · split
    · rfl
    · rfl
  · rfl

theorem rasterStage_extractInvoked (st : RunState) (source : String) (pages : List Int)
    (apiKey : String) (o : RunOracle) (rt : Nat) :
    (rasterStage st source pages apiKey o rt).extractInvoked = st.extractInvoked := by
  unfold rasterStage
  split
  · split
    · rfl
    · rfl
  · rfl

theorem rasterStage_dirRemoved_iff (st : RunState) (source : String) (pages : List Int)
    (apiKey : String) (o : RunOracle) (rt : Nat) (h : st.dirRemoved = false) :
    ((rasterStage st source pages apiKey o rt).dirRemoved = true ↔
      (rasterStage st source pages apiKey o rt).exitCode = some 0) := by
  unfold rasterStage
  split
  · split
    · simp [h]
    · simp
  · simp [h]

theorem rasterStage_missing_key (st : RunState) (source : String) (pages : List Int)
    (o : RunOracle) (rt : Nat) (hras : o.rasterOk = true) (hpages : pages ≠ []) :
    rasterStage st source pages "" o rt =
      { st with
        rasterSource := some source
        images := pages
        exitCode := some 1 } := by
  unfold rasterStage
  rw [hras]
  cases pages with
  | nil => exact absurd rfl hpages
  | cons p ps => rfl

theorem accumulate_shift (o : RunOracle) (rt : Nat) :
    ∀ (l : List Int) (a : String),
      List.foldl (fun acc p => acc ++ pageMarkdown o rt p ++ "\n\n") a l =
        a ++ accumulateMarkdown o rt l := by
  intro l
  induction l with
  | nil =>
    intro a
    simp [accumulateMarkdown, String.append_empty]
  | cons x xs ih =>
    intro a
    simp only [List.foldl_cons, accumulateMarkdown]
    rw [ih (a ++ pageMarkdown o rt x ++ "\n\n"), ih ("" ++ pageMarkdown o rt x ++ "\n\n")]
    simp [String.empty_append, String.append_assoc]

theorem accumulate_append (o : RunOracle) (rt : Nat) (l₁ l₂ : List Int) :
    accumulateMarkdown o rt (l₁ ++ l₂) =
      accumulateMarkdown o rt l₁ ++ accumulateMarkdown o rt l₂ := by
  simp only [accumulateMarkdown, List.foldl_append]
  rw [accumulate_shift]
  rfl

theorem accumulate_cons (o : RunOracle) (rt : Nat) (p : Int) (l : List Int) :
    accumulateMarkdown o rt (p :: l) =
      pageMarkdown o rt p ++ "\n\n" ++ accumulateMarkdown o rt l := by
  simp only [accumulateMarkdown, List.foldl_cons]
  rw [accumulate_shift, String.empty_append]
  rfl

theorem firstReadError_some_iff (reads : List (Except String String)) :
    (∃ e, firstReadError reads = some e) ↔
      ∃ x ∈ reads, ∃ e, x = Except.error e := by
  induction reads with
  | nil => simp [firstReadError]
  | cons r l ih =>
    cases r with
    | error e =>
      simp [firstReadError, List.findSome?]
    | ok v =>
      simp only [firstReadError, List.findSome?] at ih ⊢
      simpa using ih

theorem rasterStage_images_of_rasterOk (st : RunState) (source : String)
    (pages : List Int) (apiKey : String) (o : RunOracle) (rt : Nat)
    (hras : o.rasterOk = true) :
    (rasterStage st source pages apiKey o rt).images = pages := by
  unfold rasterStage
  rw [if_pos hras]
  split
  · rfl
  · rfl

theorem runPipeline_cons_ok (a : JSNum) (rest : List JSNum) (n : Nat)
    (apiKey : String) (o : RunOracle) (rt : Nat) (total : Int)
    (hn : n ≠ 0) (htot : o.totalPages = Except.ok total) :
    runPipeline (a :: rest) n apiKey o rt =
      pageStage (parseArgs a rest).1 (parseArgs a rest).2 total apiKey o rt := by
  simp only [runPipeline, if_neg hn]
  rw [htot]

theorem pageStage_dirRemoved_iff (startArg endArg : JSNum) (total : Int)
    (apiKey : String) (o : RunOracle) (rt : Nat) :
    ((pageStage startArg endArg total apiKey o rt).dirRemoved = true ↔
      (pageStage startArg endArg total apiKey o rt).exitCode = some 0) := by
  simp only [pageStage]
  split
  · split
    · exact rasterStage_dirRemoved_iff _ _ _ _ _ _ rfl
    · simp [countedState, initState]
  · exact rasterStage_dirRemoved_iff _ _ _ _ _ _ rfl

/-- C1 counterexample: with totalPages = 3 and parsed arguments
(start, end) = (1, -1), the end page -1 is out of bounds (it is not in
[1, 3]), yet the resolved end is -1, not totalPages = 3: the clamping
`endPage === 0 || endPage > totalPages` fires on neither comparison, so
the claim's "generally any unset-or-out-of-bounds end resolves to
totalPages" is false for negative ends. -/
theorem c1_counterexample :
    resolveRange (JSNum.int 1) (JSNum.int (-1)) 3 = (JSNum.int 1, JSNum.int (-1)) ∧
      (resolveRange (JSNum.int 1) (JSNum.int (-1)) 3).2 ≠ JSNum.int 3 := by
  decide

/-- C1 (amended): for every total page count totalPages ≥ 1 and parsed
integer arguments (start, end): if 1 ≤ start ≤ end ≤ totalPages the
resolved range equals (start, end); for start outside [1, totalPages] the
resolved start is 1; for end = 0 or end > totalPages the resolved end is
totalPages; but a negative end survives resolution unchanged — only the
exact sentinel 0 and overlarge ends are clamped to totalPages. -/
theorem c1_page_range_resolution (s e total : Int) (htot : 1 ≤ total) :
    (1 ≤ s → s ≤ e → e ≤ total →
      resolveRange (JSNum.int s) (JSNum.int e) total = (JSNum.int s, JSNum.int e)) ∧
    ((s < 1 ∨ total < s) →
      (resolveRange (JSNum.int s) (JSNum.int e) total).1 = JSNum.int 1) ∧
    ((e = 0 ∨ total < e) →
      (resolveRange (JSNum.int s) (JSNum.int e) total).2 = JSNum.int total) ∧
    (e < 0 → (resolveRange (JSNum.int s) (JSNum.int e) total).2 = JSNum.int e) := by
  refine ⟨?_, ?_, ?_, ?_⟩
  · intro h1 h2 h3
    simp only [resolveRange, jsLt, jsGt, jsEq, Bool.or_eq_true, decide_eq_true_eq, beq_iff_eq]
    rw [if_neg (by omega), if_neg (by omega)]
  · intro h
    simp only [resolveRange, jsLt, jsGt, jsEq, Bool.or_eq_true, decide_eq_true_eq, beq_iff_eq]
    rw [if_pos (by omega)]
  · intro h
    simp only [resolveRange, jsLt, jsGt, jsEq, Bool.or_eq_true, decide_eq_true_eq, beq_iff_eq]
    rw [if_pos (by omega)]
  · intro h
    simp only [resolveRange, jsLt, jsGt, jsEq, Bool.or_eq_true, decide_eq_true_eq, beq_iff_eq]
    rw [if_neg (by omega)]

/-- C1 witness: the amended resolution theorem applied at concrete
inputs: an in-range request (2, 3) of 5 pages is kept, start 0 is clamped
to 1, end 9 > 5 is clamped to 5, and a negative end -2 is kept. -/
theorem c1_witness :
    resolveRange (JSNum.int 2) (JSNum.int 3) 5 = (JSNum.int 2, JSNum.int 3) ∧
    (resolveRange (JSNum.int 0) (JSNum.int 9) 5).1 = JSNum.int 1 ∧
    (resolveRange (JSNum.int 2) (JSNum.int 9) 5).2 = JSNum.int 5 ∧
    (resolveRange (JSNum.int 2) (JSNum.int (-2)) 5).2 = JSNum.int (-2) :=
  ⟨(c1_page_range_resolution 2 3 5 (by decide)).1 (by decide) (by decide) (by decide),
   (c1_page_range_resolution 0 9 5 (by decide)).2.1 (Or.inl (by decide)),
   (c1_page_range_resolution 2 9 5 (by decide)).2.2.1 (Or.inr (by decide)),
   (c1_page_range_resolution 2 (-2) 5 (by decide)).2.2.2 (by decide)⟩

/-- C2 counterexample: a run whose pdfinfo page-count query fails creates
the working directory (and saves the input PDF into it) but terminates
with exit code 1 without removing it: the `fs.rmSync` cleanup sits on the
success path only, so the directory is not removed "regardless of
outcome". -/
theorem c2_counterexample :
    (runPipeline [JSNum.int 1, JSNum.int 2] 1 "key"
      { totalPages := Except.error "pdfinfo exited with code 1", extractOk := true,
        rasterOk := true, attempts := fun _ _ => none } 3).dirCreated = true ∧
    (runPipeline [JSNum.int 1, JSNum.int 2] 1 "key"
      { totalPages := Except.error "pdfinfo exited with code 1", extractOk := true,
        rasterOk := true, attempts := fun _ _ => none } 3).dirRemoved = false ∧
    (runPipeline [JSNum.int 1, JSNum.int 2] 1 "key"
      { totalPages := Except.error "pdfinfo exited with code 1", extractOk := true,
        rasterOk := true, attempts := fun _ _ => none } 3).exitCode = some 1 := by
  decide

/-- C2 (amended): the working directory is removed exactly on the runs
that complete the whole pipeline and exit 0; on every failing path —
page-count failure, extraction failure, rasterization failure, or the
missing-API-key exit during transcription — the run ends with exit code 1
and the directory is left on disk. -/
theorem c2_workdir_removed_iff_success (args : List JSNum) (inputSize : Nat)
    (apiKey : String) (o : RunOracle) (rt : Nat) :
    ((runPipeline args inputSize apiKey o rt).dirRemoved = true ↔
      (runPipeline args inputSize apiKey o rt).exitCode = some 0) := by
  cases args with
  | nil => simp [runPipeline, initState]
  | cons a rest =>
    simp only [runPipeline]
    split
    · simp [initState]
    · split
      · simp [countedState, initState]
      · exact pageStage_dirRemoved_iff _ _ _ _ _ _

/-- C3: end-to-end run on a 3-page document with arguments ["2", "3"] and
a transcription oracle returning "# Page N\n" for page N: pages 2-3 are
extracted (pdftk range argument "2-3", output extract_2_3.pdf),
rasterized to the two images for content pages 2 and 3, the printed
markdown is exactly "# Page 2\n\n\n# Page 3\n\n\n" (each fragment
followed by the blank-line separator), and the working directory is
removed with exit code 0. -/
theorem c3_end_to_end :
    runPipeline [JSNum.int 2, JSNum.int 3] 1 "key"
      { totalPages := Except.ok 3, extractOk := true, rasterOk := true,
        attempts := fun p _ => some ("# Page " ++ toString p ++ "\n") } 3 =
    { dirCreated := true, pdfSaved := true, pageCountQueried := true,
      extractInvoked := true, extractRangeArg := some "2-3",
      rasterSource := some "extract_2_3.pdf", images := [2, 3],
      printed := some "# Page 2\n\n\n# Page 3\n\n\n",
      dirRemoved := true, exitCode := some 0 } := by
  decide

/-- C4: a page p whose transcription call fails on every retry attempt
contributes exactly the empty string followed by the blank-line separator
"\n\n" to the accumulated markdown: its retry-wrapped call returns "",
the separator is still appended, no error is raised (the accumulator is a
total function), and the pages after p are still processed and contribute
as usual. -/
theorem c4_failed_page_contribution (o : RunOracle) (retryTimes : Nat) (p : Int)
    (pre post : List Int) (hfail : ∀ i, i < retryTimes → o.attempts p i = none) :
    pageMarkdown o retryTimes p = "" ∧
    accumulateMarkdown o retryTimes (pre ++ p :: post) =
      accumulateMarkdown o retryTimes pre ++ ("" ++ "\n\n") ++
        accumulateMarkdown o retryTimes post := by
  have hpm : pageMarkdown o retryTimes p = "" := by
    unfold pageMarkdown completionRetry
    rw [retryGo_all_fail (o.attempts p) retryTimes 0 (fun j hj1 hj2 => hfail j (by omega))]
  refine ⟨hpm, ?_⟩
  rw [accumulate_append, accumulate_cons, hpm, String.empty_append, String.append_assoc]

/-- C4 witness: for an oracle whose transcription of page 5 always fails
while other pages return "ok", the run over pages [1, 5, 2] accumulates
page 5's contribution as exactly "" ++ "\n\n" between the contributions
of pages 1 and 2. -/
theorem c4_witness :
    pageMarkdown
      { totalPages := Except.ok 9, extractOk := true, rasterOk := true,
        attempts := fun q _ => if q = 5 then none else some "ok" } 3 5 = "" ∧
    accumulateMarkdown
      { totalPages := Except.ok 9, extractOk := true, rasterOk := true,
        attempts := fun q _ => if q = 5 then none else some "ok" } 3 ([1] ++ 5 :: [2]) =
      accumulateMarkdown
        { totalPages := Except.ok 9, extractOk := true, rasterOk := true,
          attempts := fun q _ => if q = 5 then none else some "ok" } 3 [1] ++
        ("" ++ "\n\n") ++
        accumulateMarkdown
          { totalPages := Except.ok 9, extractOk := true, rasterOk := true,
            attempts := fun q _ => if q = 5 then none else some "ok" } 3 [2] :=
  c4_failed_page_contribution
    { totalPages := Except.ok 9, extractOk := true, rasterOk := true,
      attempts := fun q _ => if q = 5 then none else some "ok" } 3 5 [1] [2]
    (fun _ _ => rfl)

/-- C5: the retry-wrapped completion call makes at most retryTimes
attempts (the parameter defaults to 3); when every attempt fails it
returns the empty string — never an error — after logging one error and
performing one 500ms wait per failed attempt; when attempt k is the first
to succeed with response s it returns s immediately after k + 1 attempts,
k logged errors and k waits. -/
theorem c5_retry_behaviour (att : Nat → Option String) (retryTimes : Nat) :
    (completionRetry att retryTimes).attempts ≤ retryTimes ∧
    ((∀ i, i < retryTimes → att i = none) →
      completionRetry att retryTimes =
        { result := "", attempts := retryTimes, errorsLogged := retryTimes,
          waitsMs := List.replicate retryTimes retryDelayMs }) ∧
    (∀ k s, k < retryTimes → att k = some s → (∀ j, j < k → att j = none) →
      completionRetry att retryTimes =
        { result := s, attempts := k + 1, errorsLogged := k,
          waitsMs := List.replicate k retryDelayMs }) ∧
    retryTimesDefault = 3 ∧ retryDelayMs = 500 := by
  refine ⟨retryGo_attempts_le att retryTimes 0, ?_, ?_, rfl, rfl⟩
  · intro h
    exact retryGo_all_fail att retryTimes 0 (fun j hj1 hj2 => h j (by omega))
  · intro k s hk hsucc hfail
    exact retryGo_first_success att retryTimes 0 k s hk (by simpa using hsucc)
      (fun j hj => by simpa using hfail j hj)

/-- C5 witness: with three attempts, an always-failing client yields ""
after 3 attempts, 3 logged errors and 3 waits of 500ms; a client that
fails once and then succeeds with "ok" yields "ok" after 2 attempts. -/
theorem c5_witness :
    completionRetry (fun _ => none) 3 =
      { result := "", attempts := 3, errorsLogged := 3,
        waitsMs := List.replicate 3 retryDelayMs } ∧
    completionRetry (fun i => if i = 1 then some "ok" else none) 3 =
      { result := "ok", attempts := 2, errorsLogged := 1,
        waitsMs := List.replicate 1 retryDelayMs } :=
  ⟨(c5_retry_behaviour (fun _ => none) 3).2.1 (fun _ _ => rfl),
   (c5_retry_behaviour (fun i => if i = 1 then some "ok" else none) 3).2.2.1 1 "ok"
     (by omega) rfl
     (fun j hj => by
       have hj0 : j = 0 := by omega
       subst hj0
       rfl)⟩

/-- C6 counterexample: a response whose first candidate's first content
part exists but carries no text field passes every guard of the chain in
LLMClient.completion, so the unguarded `parts[0].text` — the JS undefined
value — is returned instead of the empty string the claim promises. -/
theorem c6_counterexample :
    clientCompletion [] (Except.ok (some ⟨some [⟨some ⟨some [⟨none⟩]⟩⟩]⟩)) =
      Except.ok JsValue.undef ∧
    JsValue.undef ≠ JsValue.str "" :=
  ⟨rfl, by decide⟩

/-- C6 (amended): the completion client returns the first candidate's
first content part's text field; it returns the empty string without
raising when the candidates array is absent or empty, the first
candidate's content is absent, its parts are absent or empty — but when
the first part exists without a text field the unguarded property read
yields undefined, not the empty string; and the call throws exactly when
an image-file read or the HTTP transport fails. -/
theorem c6_response_parsing (reads : List (Except String String))
    (http : Except String (Option ApiResponse)) (t : String)
    (ps : List JsPart) (cs : List JsCandidate) :
    extractText (some ⟨some (⟨some ⟨some (⟨some t⟩ :: ps)⟩⟩ :: cs)⟩) = JsValue.str t ∧
    extractText none = JsValue.str "" ∧
    extractText (some ⟨none⟩) = JsValue.str "" ∧
    extractText (some ⟨some []⟩) = JsValue.str "" ∧
    extractText (some ⟨some (⟨none⟩ :: cs)⟩) = JsValue.str "" ∧
    extractText (some ⟨some (⟨some ⟨none⟩⟩ :: cs)⟩) = JsValue.str "" ∧
    extractText (some ⟨some (⟨some ⟨some []⟩⟩ :: cs)⟩) = JsValue.str "" ∧
    extractText (some ⟨some (⟨some ⟨some (⟨none⟩ :: ps)⟩⟩ :: cs)⟩) = JsValue.undef ∧
    ((∃ e, clientCompletion reads http = Except.error e) ↔
      ((∃ x ∈ reads, ∃ e, x = Except.error e) ∨ ∃ e, http = Except.error e)) := by
  refine ⟨rfl, rfl, rfl, rfl, rfl, rfl, rfl, rfl, ?_⟩
  unfold clientCompletion
  cases hfe : firstReadError reads with
  | some e =>
    have hread : ∃ x ∈ reads, ∃ e, x = Except.error e :=
      (firstReadError_some_iff reads).mp ⟨e, hfe⟩
    simp [hread]
  | none =>
    have hread : ¬∃ x ∈ reads, ∃ e, x = Except.error e := by
      intro h
      obtain ⟨e, he⟩ := (firstReadError_some_iff reads).mpr h
      rw [hfe] at he
      exact Option.noConfusion he
    cases http with
    | error e => simp [hread]
    | ok r => simp [hread]

/-- C7: in a run that reaches range resolution, if the resolved range is
exactly (1, totalPages) then the pdftk extraction step is not invoked and
pdftoppm rasterizes the originally saved input.pdf; if the resolved range
differs in either component, extraction is invoked and pdftoppm
rasterizes the extracted PDF. -/
theorem c7_extraction_iff_subrange (a : JSNum) (rest : List JSNum) (n : Nat)
    (apiKey : String) (o : RunOracle) (rt : Nat) (total : Int) (s e : JSNum)
    (hn : n ≠ 0) (htot : o.totalPages = Except.ok total) (hex : o.extractOk = true)
    (hres : resolveRange (parseArgs a rest).1 (parseArgs a rest).2 total = (s, e)) :
    ((s = JSNum.int 1 ∧ e = JSNum.int total) →
      (runPipeline (a :: rest) n apiKey o rt).extractInvoked = false ∧
      (runPipeline (a :: rest) n apiKey o rt).rasterSource = some "input.pdf") ∧
    (¬(s = JSNum.int 1 ∧ e = JSNum.int total) →
      (runPipeline (a :: rest) n apiKey o rt).extractInvoked = true ∧
      (runPipeline (a :: rest) n apiKey o rt).rasterSource =
        some ("extract_" ++ jsNumToString s ++ "_" ++ jsNumToString e ++ ".pdf")) := by
  rw [runPipeline_cons_ok a rest n apiKey o rt total hn htot]
  simp only [pageStage, hres]
  constructor
  · rintro ⟨hs, he⟩
    subst hs
    subst he
    have hcond : (!jsEq (JSNum.int 1) (JSNum.int 1) ||
        !jsEq (JSNum.int total) (JSNum.int total)) = false := by
      simp [jsEq]
    rw [hcond]
    simp only [Bool.false_eq_true, if_false]
    exact ⟨rasterStage_extractInvoked _ _ _ _ _ _, rasterStage_rasterSource _ _ _ _ _ _⟩
  · intro hne
    have hcond : (!jsEq s (JSNum.int 1) || !jsEq e (JSNum.int total)) = true := by
      rcases not_and_or.mp hne with h | h
      · have hf : jsEq s (JSNum.int 1) = false := by
          cases hb : jsEq s (JSNum.int 1)
          · rfl
          · exact absurd ((jsEq_int_iff s 1).mp hb) h
        simp [hf]
      · have hf : jsEq e (JSNum.int total) = false := by
          cases hb : jsEq e (JSNum.int total)
          · rfl
          · exact absurd ((jsEq_int_iff e total).mp hb) h
        simp [hf]
    rw [hcond]
    simp only [if_true]
    rw [if_pos hex]
    exact ⟨rasterStage_extractInvoked _ _ _ _ _ _, rasterStage_rasterSource _ _ _ _ _ _⟩

/-- C7 witness: the equivalence applied to two concrete runs over a
3-page document: arguments (2, 3) resolve to a strict sub-range, so
extraction runs and rasterization reads extract_2_3.pdf; arguments (1, 3)
resolve to the full range, so no extraction occurs and rasterization
reads input.pdf. -/
theorem c7_witness :
    ((runPipeline [JSNum.int 2, JSNum.int 3] 1 "key"
      { totalPages := Except.ok 3, extractOk := true, rasterOk := true,
        attempts := fun _ _ => some "md" } 3).extractInvoked = true ∧
     (runPipeline [JSNum.int 2, JSNum.int 3] 1 "key"
      { totalPages := Except.ok 3, extractOk := true, rasterOk := true,
        attempts := fun _ _ => some "md" } 3).rasterSource =
        some ("extract_" ++ jsNumToString (JSNum.int 2) ++ "_" ++
          jsNumToString (JSNum.int 3) ++ ".pdf")) ∧
    ((runPipeline [JSNum.int 1, JSNum.int 3] 1 "key"
      { totalPages := Except.ok 3, extractOk := true, rasterOk := true,
        attempts := fun _ _ => some "md" } 3).extractInvoked = false ∧
     (runPipeline [JSNum.int 1, JSNum.int 3] 1 "key"
      { totalPages := Except.ok 3, extractOk := true, rasterOk := true,
        attempts := fun _ _ => some "md" } 3).rasterSource = some "input.pdf") :=
  ⟨(c7_extraction_iff_subrange (JSNum.int 2) [JSNum.int 3] 1 "key"
      { totalPages := Except.ok 3, extractOk := true, rasterOk := true,
        attempts := fun _ _ => some "md" } 3 3 (JSNum.int 2) (JSNum.int 3)
      (by decide) rfl rfl (by decide)).2 (by decide),
   (c7_extraction_iff_subrange (JSNum.int 1) [JSNum.int 3] 1 "key"
      { totalPages := Except.ok 3, extractOk := true, rasterOk := true,
        attempts := fun _ _ => some "md" } 3 3 (JSNum.int 1) (JSNum.int 3)
      (by decide) rfl rfl (by decide)).1 ⟨rfl, rfl⟩⟩

/-- C8: the per-page vision transcription call of `convertImageToMarkdown`
passes model "gemini-1.5-pro", temperature 0.3 and an 8192-token output
budget; because the model argument is non-empty, the
OPENAI_DEFAULT_MODEL fallback inside `completion` never fires for it —
that environment default applies only when the model argument is the
empty string. -/
theorem c8_vision_call_params (envDefault : String) :
    resolveModel convertImageToMarkdownParams.model envDefault = "gemini-1.5-pro" ∧
    convertImageToMarkdownParams.temperature = 3 / 10 ∧
    convertImageToMarkdownParams.maxTokens = 8192 ∧
    (envDefault ≠ "" → resolveModel "" envDefault = envDefault) := by
  refine ⟨rfl, by norm_num [convertImageToMarkdownParams], rfl, ?_⟩
  intro h
  simp [resolveModel, jsOrString, h]

/-- C8 witness: with OPENAI_DEFAULT_MODEL set to "custom-model", the
vision call still resolves to "gemini-1.5-pro", while an unspecified
model argument would resolve to "custom-model". -/
theorem c8_witness :
    resolveModel convertImageToMarkdownParams.model "custom-model" = "gemini-1.5-pro" ∧
    resolveModel "" "custom-model" = "custom-model" :=
  ⟨(c8_vision_call_params "custom-model").1,
   (c8_vision_call_params "custom-model").2.2.2 (by decide)⟩

/-- C9: parsed arguments that are NaN survive range resolution (no
clamping comparison is true for NaN), the extraction branch is taken
because `NaN !== 1`, and the pdftk range argument is the literal string
"NaN-NaN". -/
theorem c9_nan_range :
    resolveRange JSNum.nan JSNum.nan 3 = (JSNum.nan, JSNum.nan) ∧
    (runPipeline [JSNum.nan, JSNum.nan] 1 "key"
      { totalPages := Except.ok 3, extractOk := false, rasterOk := true,
        attempts := fun _ _ => none } 3).extractInvoked = true ∧
    (runPipeline [JSNum.nan, JSNum.nan] 1 "key"
      { totalPages := Except.ok 3, extractOk := false, rasterOk := true,
        attempts := fun _ _ => none } 3).extractRangeArg = some "NaN-NaN" := by
  decide

/-- C10: the missing-API-key check runs inside each per-page completion
call, not at startup: when OPENAI_API_KEY is unset, a run with non-empty
arguments and input whose page-count query, optional extraction and
rasterization all succeed and produce at least one image still creates
the working directory, saves the input PDF, queries the page count and
rasterizes — and only then exits with code 1 at the first transcription
call, printing nothing and leaving the working directory on disk. -/
theorem c10_missing_key_late_exit (a : JSNum) (rest : List JSNum) (n : Nat)
    (o : RunOracle) (rt : Nat) (total : Int)
    (hn : n ≠ 0) (htot : o.totalPages = Except.ok total)
    (hex : o.extractOk = true) (hras : o.rasterOk = true)
    (himg : (runPipeline (a :: rest) n "" o rt).images ≠ []) :
    (runPipeline (a :: rest) n "" o rt).dirCreated = true ∧
    (runPipeline (a :: rest) n "" o rt).pdfSaved = true ∧
    (runPipeline (a :: rest) n "" o rt).pageCountQueried = true ∧
    (runPipeline (a :: rest) n "" o rt).rasterSource ≠ none ∧
    (runPipeline (a :: rest) n "" o rt).exitCode = some 1 ∧
    (runPipeline (a :: rest) n "" o rt).printed = none ∧
    (runPipeline (a :: rest) n "" o rt).dirRemoved = false := by
  rw [runPipeline_cons_ok a rest n "" o rt total hn htot] at himg ⊢
  simp only [pageStage, hex, if_true] at himg ⊢
  revert himg
  split
  · intro himg
    rw [rasterStage_images_of_rasterOk _ _ _ _ _ _ hras] at himg
    rw [rasterStage_missing_key _ _ _ _ _ hras himg]
    simp [countedState, initState]
  · intro himg
    rw [rasterStage_images_of_rasterOk _ _ _ _ _ _ hras] at himg
    rw [rasterStage_missing_key _ _ _ _ _ hras himg]
    simp [countedState, initState]

/-- C10 witness: a run without an API key over a 2-page document with
arguments (1, 2): the directory is created, the PDF saved, the page count
queried, input.pdf rasterized to two images, and the run exits 1 with no
output and the directory still present. -/
theorem c10_witness :
    (runPipeline [JSNum.int 1, JSNum.int 2] 1 ""
      { totalPages := Except.ok 2, extractOk := true, rasterOk := true,
        attempts := fun _ _ => some "md" } 3).dirCreated = true ∧
    (runPipeline [JSNum.int 1, JSNum.int 2] 1 ""
      { totalPages := Except.ok 2, extractOk := true, rasterOk := true,
        attempts := fun _ _ => some "md" } 3).pdfSaved = true ∧
    (runPipeline [JSNum.int 1, JSNum.int 2] 1 ""
      { totalPages := Except.ok 2, extractOk := true, rasterOk := true,
        attempts := fun _ _ => some "md" } 3).pageCountQueried = true ∧
    (runPipeline [JSNum.int 1, JSNum.int 2] 1 ""
      { totalPages := Except.ok 2, extractOk := true, rasterOk := true,
        attempts := fun _ _ => some "md" } 3).rasterSource ≠ none ∧
    (runPipeline [JSNum.int 1, JSNum.int 2] 1 ""
      { totalPages := Except.ok 2, extractOk := true, rasterOk := true,
        attempts := fun _ _ => some "md" } 3).exitCode = some 1 ∧
    (runPipeline [JSNum.int 1, JSNum.int 2] 1 ""
      { totalPages := Except.ok 2, extractOk := true, rasterOk := true,
        attempts := fun _ _ => some "md" } 3).printed = none ∧
    (runPipeline [JSNum.int 1, JSNum.int 2] 1 ""
      { totalPages := Except.ok 2, extractOk := true, rasterOk := true,
        attempts := fun _ _ => some "md" } 3).dirRemoved = false :=
  c10_missing_key_late_exit (JSNum.int 1) [JSNum.int 2] 1
    { totalPages := Except.ok 2, extractOk := true, rasterOk := true,
      attempts := fun _ _ => some "md" } 3 2
    (by decide) rfl rfl rfl (by decide)
